import Mathlib

/-!
Shallow embedding of the CRSF protocol engine of SimLink
(src/simlink_csrf.py) and verification of the frozen claims about it.

Modelling conventions, used uniformly below:
* a Python `bytearray` is a `List Nat` whose entries are byte values;
* a Python single-index access `data[i]` can raise `IndexError`; it is
  modelled as `List.get? i` inside the `Option` monad, so `none` means
  "this code path raises an uncaught exception".  Python slices
  (`data[a:b]`, `data[a:]`, `data[:-1]`) never raise; they are modelled
  by the total operations `drop`/`take`/`dropLast`;
* `int.from_bytes(bs, ...)` is total on every slice length, including
  the empty slice (value 0); it is modelled by `fromBytesLE`,
  `fromBytesBE` and their signed variants;
* Python floats appear only in display scalings of already-decoded
  integers (`/ 10`, `/ 10 ** decimal_point`) and in wall-clock times.
  The scaled-for-display quotients are kept as the raw integers that
  the wire carries (no information is lost, and no claim mentions the
  scaled values).  Wall-clock instants are modelled as integers
  measured in milliseconds, so the source constants 0.005 s and 5 s
  become the integers 5 and 5000: an order-preserving rescaling under
  which every time comparison of the source is unchanged (the engine
  observes time only through such comparisons);
* `str` values built with `chr` are modelled as `String` via
  `Char.ofNat` (both are injective on byte values 0..255).
  `bytes.decode()` is strict UTF-8 in the source; it is modelled as an
  ASCII decode (`asciiDecode`), which agrees with the source on every
  input appearing in this development.
-/

set_option maxRecDepth 40000

namespace SimLink

/-- CRC8 inner loop of CRSFParser.crc8: one input byte is xor-ed in and
then run through eight rounds of the 0xD5 polynomial; the source masks
with 0xFF only after the eight rounds. -/
def crc8byte (crc byte : Nat) : Nat :=
  let c := crc ^^^ byte
  let c := (List.range 8).foldl
    (fun acc _ => if acc &&& 0x80 ≠ 0 then (acc <<< 1) ^^^ 0xD5 else acc <<< 1) c
  c &&& 0xFF

/-- CRSFParser.crc8: the fold runs over `data[2:]`, i.e. the sync and
length bytes of the buffer handed in are always skipped. -/
def crc8 (data : List Nat) : Nat :=
  (data.drop 2).foldl crc8byte 0

/-- Scan of a null-terminated byte string, as done by the several
`while data[idx] != 0: ... idx += 1` loops of the source: returns the
bytes before the first zero and the remainder after the zero;
`none` models the `IndexError` the source raises when the scan runs
off the end of the buffer without meeting a zero byte. -/
def scanNullTerm : List Nat → Option (List Nat × List Nat)
  | [] => none
  | b :: t =>
    if b = 0 then some ([], t)
    else (scanNullTerm t).map (fun r => (b :: r.1, r.2))

/-- Byte list rendered as the string the source builds with `chr`. -/
def bytesToString (bs : List Nat) : String :=
  String.mk (bs.map Char.ofNat)

/-- Model of `bytes.decode()`: the source decodes strict UTF-8 and can
raise `UnicodeDecodeError`; the model accepts exactly the ASCII range.
Both agree on all-ASCII input, which covers every input used below; no
theorem relies on the model failing where the source would succeed. -/
def asciiDecode (bs : List Nat) : Option String :=
  if bs.all (· < 128) then some (bytesToString bs) else none

/-- Little-endian unsigned `int.from_bytes(bs, kind)`, total on any
slice length just like the source. -/
def fromBytesLE (bs : List Nat) : Nat :=
  Nat.ofDigits 256 bs

/-- Big-endian unsigned `int.from_bytes`. -/
def fromBytesBE (bs : List Nat) : Nat :=
  Nat.ofDigits 256 bs.reverse

/-- Little-endian `int.from_bytes(bs, signed=True)`: two-s complement
over the width actually supplied, 0 on the empty slice. -/
def fromBytesLESigned (bs : List Nat) : Int :=
  let n := fromBytesLE bs
  if 2 * n < 2 ^ (8 * bs.length) then (n : Int)
  else (n : Int) - 2 ^ (8 * bs.length)

/-- Big-endian `int.from_bytes(bs, signed=True)`. -/
def fromBytesBESigned (bs : List Nat) : Int :=
  let n := fromBytesBE bs
  if 2 * n < 2 ^ (8 * bs.length) then (n : Int)
  else (n : Int) - 2 ^ (8 * bs.length)

/-- Result of CRSFParser.parse_device_info. -/
structure DeviceInfo where
  name : String
  serial : String
  hw_version : Nat
  sw_version : Nat
  param_count : Nat
  protocol_version : Nat
deriving DecidableEq

/-- CRSFParser.parse_device_info.  The name scan starts at index 0 of
whatever buffer the caller hands in; the remaining fields are read
relative to the byte after the terminating zero.  Single-index reads
(`data[idx+12]`, `data[idx+13]`) and the serial decode can raise, in
source order: name scan, serial decode, then the two index reads. -/
def parse_device_info (data : List Nat) : Option DeviceInfo := do
  let (nameBytes, rest) ← scanNullTerm data
  let serial ← asciiDecode (rest.take 4)
  let pc ← rest[12]?
  let pv ← rest[13]?
  pure { name := bytesToString nameBytes
         serial := serial
         hw_version := fromBytesLE ((rest.drop 4).take 4)
         sw_version := fromBytesLE ((rest.drop 8).take 4)
         param_count := pc
         protocol_version := pv }

/-- Decoded value part of one parameter, the tagged results of the
CRSFParser.parse_param_* helpers.  The float variant keeps the raw
wire integers together with decimal_point: the source additionally
divides them by 10 ^ decimal_point for display (a float operation that
loses no information and that no claim mentions). -/
inductive ChunkVal where
  | value (current_value min_value max_value : Int) (unit : String)
  | float (value min max default : Int) (decimal_point : Nat) (step_size : Int)
      (unit : String)
  | textSel (options : List String) (value min max default : Nat) (unit : String)
  | stringVal (value : String) (string_max_length : Nat)
  | folder (list_of_children : List String)
deriving DecidableEq

/-- CRSFParser.parse_param_value (deprecated numeric types 0..5):
width 1/2/4 by type, big-endian, signed iff the type is odd, then a
null-terminated unit string; `none` models the ValueError on an
unsupported type and the IndexError of the unit scan. -/
def parse_param_value (data : List Nat) (param_type : Nat) : Option ChunkVal := do
  let size ←
    if param_type = 0 ∨ param_type = 1 then some 1
    else if param_type = 2 ∨ param_type = 3 then some 2
    else if param_type = 4 ∨ param_type = 5 then some 4
    else none
  let signed := param_type % 2 = 1
  let rd : Nat → Int := fun i =>
    let s := (data.drop i).take size
    if signed then fromBytesBESigned s else (fromBytesBE s : Int)
  let cur := rd 0
  let mn := rd size
  let mx := rd (2 * size)
  let (unitBytes, _) ← scanNullTerm (data.drop (3 * size))
  pure (.value cur mn mx (bytesToString unitBytes))

/-- CRSFParser.parse_param_float: four little-endian signed 32-bit
fields, one decimal_point byte, a fifth 32-bit field (step_size), then
a null-terminated unit string. -/
def parse_param_float (data : List Nat) : Option ChunkVal := do
  let value := fromBytesLESigned (data.take 4)
  let mn := fromBytesLESigned ((data.drop 4).take 4)
  let mx := fromBytesLESigned ((data.drop 8).take 4)
  let dflt := fromBytesLESigned ((data.drop 12).take 4)
  let dp ← data[16]?
  let step := fromBytesLESigned ((data.drop 17).take 4)
  let (unitBytes, _) ← scanNullTerm (data.drop 21)
  pure (.float value mn mx dflt dp step (bytesToString unitBytes))

/-- Options string split on the semicolon, as Python str.split does
(an empty string yields a single empty piece). -/
def splitOptions (bs : List Nat) : List String :=
  (bs.splitOn 59).map bytesToString

/-- CRSFParser.parse_param_text_selection.  A leading zero byte yields
the all-default record.  Otherwise the source scans the null-terminated
options string (its extra `idx-1 < len(data)` guard can never stop the
loop before `data[idx]` raises, so the scan is exactly a
null-terminator scan), then reads four single bytes and decodes the
rest of the buffer as the unit. -/
def parse_param_text_selection (data : List Nat) : Option ChunkVal := do
  let b0 ← data[0]?
  if b0 ≠ 0 then
    let (optBytes, rest) ← scanNullTerm data
    let v ← rest[0]?
    let mn ← rest[1]?
    let mx ← rest[2]?
    let dflt ← rest[3]?
    let unit ← asciiDecode (rest.drop 4)
    pure (.textSel (splitOptions optBytes) v mn mx dflt unit)
  else
    pure (.textSel (splitOptions []) 0 0 0 0 "")

/-- CRSFParser.parse_param_string: null-terminated value then one
string_max_length byte. -/
def parse_param_string (data : List Nat) : Option ChunkVal := do
  let (valBytes, rest) ← scanNullTerm data
  let ml ← rest[0]?
  pure (.stringVal (bytesToString valBytes) ml)

/-- CRSFParser.parse_param_folder: buffers shorter than 2 bytes are an
empty folder; otherwise a null-terminated semicolon list of children. -/
def parse_param_folder (data : List Nat) : Option ChunkVal :=
  if data.length < 2 then some (.folder [])
  else do
    let (childBytes, _) ← scanNullTerm data
    pure (.folder (splitOptions childBytes))

/-- Common leading fields of every parameter, from
CRSFParser.parse_common_param_fields.  The source compares the
parent_folder byte (an int) against the tab character (a str); in
Python 3 an int never equals a str, so that workaround branch never
fires and is not modelled.  idx is the cursor just past the name
terminator, used by the type-specific parser. -/
structure CommonFields where
  parent_folder : Nat
  data_type : Nat
  name : String
  idx : Nat
deriving DecidableEq

/-- CRSFParser.parse_common_param_fields. -/
def parse_common_param_fields (data : List Nat) : Option CommonFields := do
  let parent ← data[0]?
  let dt ← data[1]?
  let (nameBytes, _) ← scanNullTerm (data.drop 2)
  pure { parent_folder := parent
         data_type := dt
         name := bytesToString nameBytes
         idx := 2 + nameBytes.length + 1 }

/-- CRSFParser.parse_specific_param_fields, dispatching on the raw
data_type byte (the source does not mask the hidden bit).  The outer
`none` models a raised exception; the inner `none` is a parameter
published without a decoded chunk (types with no branch, including the
out-of-range sentinel 127).  For types 6 and 7 the log line evaluates
`ParamType(pkt_type)`, which raises ValueError before
parse_param_value is reached. -/
def parse_specific_param_fields (header : CommonFields) (payload : List Nat) :
    Option (Option ChunkVal) :=
  let pp := payload.drop header.idx
  let t := header.data_type
  if t < 8 then
    if t ≤ 5 then (parse_param_value pp t).map some else none
  else if t = 8 then (parse_param_float pp).map some
  else if t = 9 then (parse_param_text_selection pp).map some
  else if t = 10 then (parse_param_string pp).map some
  else if t = 11 then (parse_param_folder pp).map some
  else some none

/-- Fully parsed parameter as stored in self.parameters by
crsf_parameter_settings on a successful decode. -/
structure ParamInfo where
  parameter_number : Nat
  parameter_chunks_remaining : Nat
  chunk_header : CommonFields
  chunk : Option ChunkVal
deriving DecidableEq

/-- Composition of the common-field and type-specific parses exactly as
the try block of crsf_parameter_settings performs them. -/
def parseParamFull (pn ci : Nat) (combined : List Nat) : Option ParamInfo := do
  let header ← parse_common_param_fields combined
  let chunk ← parse_specific_param_fields header combined
  pure { parameter_number := pn
         parameter_chunks_remaining := ci
         chunk_header := header
         chunk := chunk }

/-- ConnectionState enumeration of the source. -/
inductive ConnState where
  | DISCONNECTED
  | CONNECTING
  | DEVICE_INFO
  | PARAMETERS
  | CONNECTED
deriving DecidableEq

/-- Entry of self.parameters: either the decoded parameter or, on a
parse failure, the raw combined bytes the except branch stores. -/
inductive ParamRecord where
  | decoded (info : ParamInfo)
  | raw (bytes : List Nat)
deriving DecidableEq

/-- Battery telemetry snapshot.  voltage and current are kept in the
deci-units carried on the wire; the source divides them by 10.0 for
display only. -/
structure BatteryData where
  voltage_dV : Nat
  current_dA : Nat
  capacity : Nat
  remaining : Nat
deriving DecidableEq

/-- Link-statistics snapshot of crsf_link_statistics.  The source
stores the dict with these keys; initially the dict holds only
last_update, and every other key is written before any modelled read,
so a flat record with zero defaults is observationally identical. -/
structure LinkStats where
  last_update : ℤ
  uplink_rssi_1 : Int
  uplink_rssi_2 : Int
  uplink_link_quality : Nat
  uplink_snr : Nat
  active_antenna : Nat
  rf_mode : Nat
  uplink_tx_power : Nat
  downlink_rssi : Int
  downlink_link_quality : Nat
  downlink_snr : Nat
deriving DecidableEq

/-- Radio-sync snapshot of crsf_radio_id.  interval_dus is the raw
big-endian 24-bit value in tenths of a microsecond; the source divides
by 10 for display only. -/
structure RadioSync where
  interval_dus : Nat
  phase : Int
deriving DecidableEq

/-- Chunk reassembly buffer for one parameter index
(self.param_buff[param_num]): slot i holds the payload that arrived
with chunks_remaining = i. -/
structure ChunkBuf where
  total_chunks : Nat
  chunks : List (Option (List Nat))
deriving DecidableEq

/-- Lookup in a Python dict keyed by small naturals, modelled as an
association list. -/
def lookupA {α : Type} (l : List (Nat × α)) (k : Nat) : Option α :=
  (l.find? (fun p => p.1 == k)).map (fun p => p.2)

/-- Insertion/overwrite in the same dict model. -/
def insertA {α : Type} : List (Nat × α) → Nat → α → List (Nat × α)
  | [], k, v => [(k, v)]
  | p :: t, k, v => if p.1 = k then (k, v) :: t else p :: insertA t k v

/-- State of one CRSFDevice as set up by its constructor, restricted to
the fields the protocol engine itself reads or writes.  The input
filter buffers and the max_throttle/max_brake scaling constants are
consumed only by the GUI collaborator and are omitted.  Times are
rational milliseconds (see the module comment). -/
structure Dev where
  tx_state : ConnState
  rx_state : ConnState
  last_tx : ℤ
  device_info : Option DeviceInfo
  parameters : List (Nat × ParamRecord)
  param_buff : List (Nat × ChunkBuf)
  param_idx : Nat
  current_chunk : Nat
  rc_channels : List Nat
  steering_value : Nat
  throttle_value : Nat
  brake_value : Nat
  battery_data : BatteryData
  link_stats : LinkStats
  radio_sync : RadioSync
deriving DecidableEq

/-- Retransmit timeout: 0.005 s in the source, 5 in the millisecond
model. -/
def timeout : ℤ := 5

/-- CRSFDevice.__init__: rc_channels starts as sixteen zeros with
channel 0 forced to 1300 (source comment: a steering turn to signal
liveness). -/
def freshDev : Dev where
  tx_state := ConnState.DISCONNECTED
  rx_state := ConnState.DISCONNECTED
  last_tx := 0
  device_info := none
  parameters := []
  param_buff := []
  param_idx := 1
  current_chunk := 0
  rc_channels := (List.replicate 16 0).set 0 1300
  steering_value := 0
  throttle_value := 0
  brake_value := 0
  battery_data := ⟨0, 0, 0, 0⟩
  link_stats := ⟨0, 0, 0, 0, 0, 0, 0, 0, 0, 0, 0⟩
  radio_sync := ⟨0, 0⟩

/-- device_info.get with default 1, as the PARAMETERS branch of
update reads param_count. -/
def paramCountD (st : Dev) : Nat :=
  match st.device_info with
  | some di => di.param_count
  | none => 1

/-- Ping packet built once in the constructor: the byte after the
payload is crc8 of the first four bytes xor-ed with 1 shifted left by
1 (operator precedence makes the source expression crc ^ (1 << 1)),
and the final byte is the constant 0x7F. -/
def ping_base : List Nat := [0xEE, 0x04, 0x28, 0x00]

/-- Full six-byte ping packet self.ping_packet. -/
def ping_packet : List Nat :=
  ping_base ++ [crc8 ping_base ^^^ (1 <<< 1), 0x7F]

/-- Packet written by CRSFDevice.request_parameter.  The source clamps
a negative chunk index to 0; chunk indices here are naturals and every
modelled caller passes a natural, so the clamp branch never fires. -/
def request_parameter_packet (param_idx chunk_idx : Nat) : List Nat :=
  let packet := [0xEE, 0x06, 0x2C, 0xEE, 0xEA, param_idx, chunk_idx]
  packet ++ [crc8 packet]

/-- Packet written by CRSFDevice.request_elrs_status. -/
def request_elrs_status_packet : List Nat :=
  let packet := [0x00, 0x06, 0x2D, 0x2E, 0x00]
  packet ++ [crc8 packet]

/-- CRSFDevice.crsf_battery_sensor: payload is data[3:-1]; the three
leading multi-byte reads are slices (never raise) and payload[7] is a
single-index read that raises on a short frame. -/
def crsf_battery_sensor (st : Dev) (data : List Nat) : Option Dev := do
  let payload := (data.drop 3).dropLast
  let remaining ← payload[7]?
  pure { st with battery_data :=
    { voltage_dV := fromBytesBE (payload.take 2)
      current_dA := fromBytesBE ((payload.drop 2).take 2)
      capacity := fromBytesBE ((payload.drop 4).take 3)
      remaining := remaining } }

/-- CRSFDevice.crsf_link_statistics: ten single-byte reads from
payload = data[3:-1], RSSI magnitudes stored negated; publishing also
moves rx_state according to the uplink link quality. -/
def crsf_link_statistics (st : Dev) (now : ℤ) (data : List Nat) : Option Dev := do
  let payload := (data.drop 3).dropLast
  let b0 : Nat ← payload[0]?
  let b1 : Nat ← payload[1]?
  let b2 : Nat ← payload[2]?
  let b3 : Nat ← payload[3]?
  let b4 : Nat ← payload[4]?
  let b5 : Nat ← payload[5]?
  let b6 : Nat ← payload[6]?
  let b7 : Nat ← payload[7]?
  let b8 : Nat ← payload[8]?
  let b9 : Nat ← payload[9]?
  let st1 := { st with link_stats :=
    { last_update := now
      uplink_rssi_1 := -(b0 : Int)
      uplink_rssi_2 := -(b1 : Int)
      uplink_link_quality := b2
      uplink_snr := b3
      active_antenna := b4
      rf_mode := b5
      uplink_tx_power := b6
      downlink_rssi := -(b7 : Int)
      downlink_link_quality := b8
      downlink_snr := b9 } }
  if 0 < b2 then pure { st1 with rx_state := ConnState.CONNECTED }
  else pure { st1 with rx_state := ConnState.DISCONNECTED }

/-- CRSFDevice.crsf_radio_id: payload is data[5:-1]; only the
OPENTX-sync subtype 0x10 is decoded, every other subtype is logged and
ignored. -/
def crsf_radio_id (st : Dev) (data : List Nat) : Option Dev := do
  let payload := (data.drop 5).dropLast
  let subtype ← payload[0]?
  if subtype = 0x10 then
    pure { st with radio_sync :=
      { interval_dus := fromBytesBE ((payload.drop 1).take 3)
        phase := fromBytesBESigned ((payload.drop 5).dropLast) } }
  else pure st

/-- CRSFDevice.crsf_rc_channels_packed: the legacy display decode only
prints and mutates nothing, but its loop reads data[3] .. data[24] with
single-index accesses, so a shorter frame raises. -/
def crsf_rc_channels_packed (st : Dev) (data : List Nat) : Option Dev :=
  if 25 ≤ data.length then some st else none

/-- Buffer looked up (or freshly allocated with chunks_remaining + 1
empty slots) by crsf_parameter_settings for one incoming chunk. -/
def chunkStoreOf (st : Dev) (pn ci : Nat) : ChunkBuf :=
  match lookupA st.param_buff pn with
  | none => { total_chunks := ci + 1, chunks := List.replicate (ci + 1) none }
  | some b => b

/-- Outcome of the slot-store step of crsf_parameter_settings. -/
inductive StoreOutcome where
  | invalid
  | dup (buf : ChunkBuf)
  | stored (buf : ChunkBuf)
deriving DecidableEq

/-- Slot-store step: an index at or past the slot count is rejected, a
filled slot is a logged duplicate (kept, not overwritten), otherwise
the payload lands in slot chunk_index. -/
def storeChunk (buf : ChunkBuf) (ci : Nat) (payload : List Nat) : StoreOutcome :=
  if ci < buf.chunks.length then
    if (buf.chunks.getD ci none).isSome then StoreOutcome.dup buf
    else StoreOutcome.stored { buf with chunks := buf.chunks.set ci (some payload) }
  else StoreOutcome.invalid

/-- Completion test: every slot holds data. -/
def allFilled (buf : ChunkBuf) : Bool :=
  buf.chunks.all (fun c => c.isSome)

/-- Concatenation of the slots in reversed order (highest
chunks_remaining first), as the completion branch builds
combined_data. -/
def combineChunks (buf : ChunkBuf) : List Nat :=
  buf.chunks.reverse.foldl (fun acc c => acc ++ c.getD []) []

/-- Clearing step after completion: the source sets every slot back to
None but keeps the buffer (and its slot count) in param_buff. -/
def clearChunks (buf : ChunkBuf) : ChunkBuf :=
  { buf with chunks := List.replicate buf.chunks.length none }

/-- Publication step of the completion branch: the try block parses the
combined buffer; the except branch catches IndexError, ValueError,
TypeError and UnicodeDecodeError and stores the raw combined bytes
instead.  Those four types cover every exception the parse helpers can
raise: single-index reads (IndexError), ParamType lookup and
unsupported numeric widths (ValueError), and bytes.decode
(UnicodeDecodeError); no other raising operation occurs in the try
block, which is why this step is total. -/
def publishRecord (pn ci : Nat) (combined : List Nat) : ParamRecord :=
  match parseParamFull pn ci combined with
  | some info => ParamRecord.decoded info
  | none => ParamRecord.raw combined

/-- Scan of the missing-chunk loop: the source walks
enumerate(reversed(chunks)) and requests the position i of the first
empty entry it meets (a position counted from the highest slot), then
breaks. -/
def findMissingReq (chunks : List (Option (List Nat))) : Option Nat :=
  chunks.reverse.findIdx? (fun c => c.isNone)

/-- CRSFDevice.crsf_parameter_settings.  The two single-index header
reads raw[5] and raw[6] sit outside the try block, so their failure is
an uncaught exception (outer none).  The returned list holds the
packets written (at most one chunk request per incoming frame). -/
def crsf_parameter_settings (st : Dev) (now : ℤ) (raw : List Nat) :
    Option (Dev × List (List Nat)) := do
  let pn ← raw[5]?
  let ci ← raw[6]?
  let payload := raw.dropLast.drop 7
  let buf0 := chunkStoreOf st pn ci
  match storeChunk buf0 ci payload with
  | StoreOutcome.invalid =>
    pure ({ st with param_buff := insertA st.param_buff pn buf0 }, [])
  | StoreOutcome.dup buf | StoreOutcome.stored buf =>
    if allFilled buf then
      let combined := combineChunks buf
      pure ({ st with
        param_buff := insertA st.param_buff pn (clearChunks buf)
        parameters := insertA st.parameters pn (publishRecord pn ci combined) }, [])
    else
      match findMissingReq buf.chunks with
      | some i =>
        pure ({ st with param_buff := insertA st.param_buff pn buf, last_tx := now },
          [request_parameter_packet pn i])
      | none =>
        pure ({ st with param_buff := insertA st.param_buff pn buf }, [])

/-- Dispatch of one sync/length/CRC-checked frame, the tail of
CRSFDevice.handle_rx.  The CRC is computed over all bytes except the
trailing byte; on a match the frame type data[2] selects the decoder.
A none anywhere is an exception escaping handle_rx: the try block of
the source covers only the serial read above this code. -/
def handle_frame (st : Dev) (now : ℤ) (data : List Nat) :
    Option (Dev × List (List Nat)) := do
  let last ← data.getLast?
  if crc8 data.dropLast ≠ last then pure (st, [])
  else
    let ft ← data[2]?
    if ft = 0x08 then (crsf_battery_sensor st data).map (fun s => (s, []))
    else if ft = 0x14 then (crsf_link_statistics st now data).map (fun s => (s, []))
    else if ft = 0x16 then (crsf_rc_channels_packed st data).map (fun s => (s, []))
    else if ft = 0x29 then
      let st1 :=
        if st.tx_state = ConnState.CONNECTING then
          { st with tx_state := ConnState.PARAMETERS }
        else st
      (parse_device_info data).map (fun di => ({ st1 with device_info := some di }, []))
    else if ft = 0x2B then crsf_parameter_settings st now data
    else if ft = 0x3A then (crsf_radio_id st data).map (fun s => (s, []))
    else pure (st, [])

/-- CRSFDevice.handle_rx.  The serial read drains every waiting byte
(nothing if fewer than 5 are waiting) and the drained buffer is then
treated as one single candidate frame: if its total length disagrees
with its length byte it is truncated to length byte + 2 when longer,
else discarded.  incoming plays the role of the drained bytes. -/
def handle_rx (st : Dev) (now : ℤ) (serial_open : Bool) (incoming : List Nat) :
    Option (Dev × List (List Nat)) :=
  if ¬ serial_open then some (st, [])
  else if incoming.length < 5 then some (st, [])
  else
    let rcvd_len := incoming.length - 2
    if rcvd_len < 1 then some (st, [])
    else if ¬ (incoming.getD 0 0 = 0x00 ∨ incoming.getD 0 0 = 0xEA ∨
               incoming.getD 0 0 = 0x0C ∨ incoming.getD 0 0 = 0xC8) then
      some (st, [])
    else
      let expected := incoming.getD 1 0
      if rcvd_len = expected ∧ incoming.length ≤ 64 then
        handle_frame st now incoming
      else if expected + 2 < incoming.length then
        handle_frame st now (incoming.take (expected + 2))
      else some (st, [])

/-- Channel-mixing step at the top of update_rc_channels: channel 0
takes the steering value and channel 1 the brake value when braking
(below center), else the throttle value. -/
def set_channels (st : Dev) : List Nat :=
  let c := st.rc_channels.set 0 st.steering_value
  if st.brake_value < 992 then c.set 1 st.brake_value else c.set 1 st.throttle_value

/-- Byte-emitting inner while loop of the channel packer, written with
a structural fuel so that it evaluates inside the kernel: each pass
requires at least 8 pending bits and removes 8 of them, so a fuel
equal to the pending bit count can never be exhausted. -/
def emitWhileAux : Nat → Nat → Nat → List Nat × Nat × Nat
  | 0, buffer, bits => ([], buffer, bits)
  | fuel + 1, buffer, bits =>
    if 8 ≤ bits then
      let r := emitWhileAux fuel (buffer >>> 8) (bits - 8)
      ((buffer &&& 0xFF) :: r.1, r.2)
    else ([], buffer, bits)

/-- Inner while loop of the channel packer: while at least 8 bits are
pending, append the low byte and shift the accumulator right by 8. -/
def emitWhile (buffer bits : Nat) : List Nat × Nat × Nat :=
  emitWhileAux bits buffer bits

/-- Bit-packing for loop of update_rc_channels: each channel value is
or-ed into the accumulator at the current bit offset (11 bits per
channel, least significant bit first), full bytes are flushed as they
form, and a final partial byte is flushed after the loop. -/
def packChans : List Nat → Nat → Nat → List Nat
  | [], buffer, bits => if 0 < bits then [buffer &&& 0xFF] else []
  | v :: vs, buffer, bits =>
    let buffer1 := buffer ||| (v <<< bits)
    let r := emitWhile buffer1 (bits + 11)
    r.1 ++ packChans vs r.2.1 r.2.2

/-- Full outbound RC frame of update_rc_channels: the fixed header
[0xC8, 0x18, 0x16], the packed channel bytes, and the trailing CRC
computed over the packet built so far (crc8 itself skips the first two
bytes). -/
def rc_packet (chs : List Nat) : List Nat :=
  let packet := [0xC8, 0x18, 0x16] ++ packChans chs 0 0
  packet ++ [crc8 packet]

/-- CRSFDevice.update_rc_channels: returns early (False) with no write
when the serial port is closed; otherwise mixes the channels, writes
the packed frame and stamps last_tx.  The source function falls off
the end returning None, so its caller in update always sees a falsy
result. -/
def update_rc_channels (st : Dev) (now : ℤ) (serial_open : Bool) :
    Dev × List (List Nat) :=
  if ¬ serial_open then (st, [])
  else
    let chs := set_channels st
    ({ st with rc_channels := chs, last_tx := now }, [rc_packet chs])

/-- Modelled from the spec: the canonical 11-bit LSB-first channel
unpacker.  The source contains only the legacy big-endian display
decode (crsf_rc_channels_packed), so the canonical unpacker the spec
appeals to is taken from the spec words: channel i is the group of
bits 11i .. 11i+10 of the little-endian bitstream of the 22 payload
bytes. -/
def unpackChannels (payload : List Nat) : List Nat :=
  (List.range 16).map (fun i => fromBytesLE payload >>> (11 * i) % 2048)

/-- Timer-driven transmit part of CRSFDevice.update (everything before
the trailing handle_rx call).  Writes to a closed port raise in the
source (only update_rc_channels guards itself), modelled as none. -/
def updateTick (st : Dev) (now : ℤ) (serial_open : Bool) :
    Option (Dev × List (List Nat)) :=
  if now - st.last_tx > timeout then
    match st.tx_state with
    | ConnState.DISCONNECTED | ConnState.CONNECTING =>
      if serial_open then
        some ({ st with tx_state := ConnState.CONNECTING, last_tx := now },
          [ping_packet])
      else none
    | ConnState.PARAMETERS =>
      if serial_open then
        let st1 := { st with last_tx := now }
        let st2 :=
          if (lookupA st1.parameters st1.param_idx).isSome then
            { st1 with param_idx := st1.param_idx + 1, current_chunk := 0 }
          else st1
        let st3 :=
          if paramCountD st2 ≤ st2.param_idx then
            { st2 with tx_state := ConnState.CONNECTED }
          else st2
        some (st3, [request_parameter_packet st.param_idx st.current_chunk])
      else none
    | ConnState.DEVICE_INFO => some (st, [])
    | ConnState.CONNECTED =>
      if now - st.link_stats.last_update > 5000 then
        if serial_open then
          let stl := { st with
            link_stats := { st.link_stats with
              last_update := now, uplink_link_quality := 0, uplink_rssi_1 := 0 }
            rx_state := ConnState.DISCONNECTED
            last_tx := now }
          let r := update_rc_channels stl now serial_open
          some ({ r.1 with last_tx := now },
            [request_parameter_packet 0x14 0, request_elrs_status_packet] ++ r.2)
        else none
      else
        let r := update_rc_channels st now serial_open
        some ({ r.1 with last_tx := now }, r.2)
  else some (st, [])

/-- CRSFDevice.update: a hard serial loss while CONNECTED forces
DISCONNECTED before anything else; otherwise the timer-driven transmit
step runs and, unless the state is DISCONNECTED afterwards, handle_rx
drains the incoming bytes. -/
def update (st : Dev) (now : ℤ) (serial_open : Bool) (incoming : List Nat) :
    Option (Dev × List (List Nat)) := do
  if st.tx_state = ConnState.CONNECTED ∧ ¬ serial_open then
    pure ({ st with tx_state := ConnState.DISCONNECTED }, [])
  else
    let r ← updateTick st now serial_open
    if r.1.tx_state ≠ ConnState.DISCONNECTED then
      let r2 ← handle_rx r.1 now serial_open incoming
      pure (r2.1, r.2 ++ r2.2)
    else pure r

/-- Modelled from the claim words of C4: the slot index of the first
empty slot found when scanning the slots from the highest index down
to the lowest. -/
def specFirstEmptySlotDesc (chunks : List (Option (List Nat))) : Option Nat :=
  (chunks.reverse.findIdx? (fun c => c.isNone)).map (fun p => chunks.length - 1 - p)

/-- Wire shape of a parameter-settings frame (type 0x2B) as
crsf_parameter_settings reads it: sync, length byte, type, destination
and origin addresses, parameter number, chunks-remaining byte, chunk
payload, trailing CRC. -/
def paramFrame (pn ci : Nat) (p : List Nat) : List Nat :=
  let base := [0xEA, p.length + 6, 0x2B, 0xEE, 0xEA, pn, ci] ++ p
  base ++ [crc8 base]

/-- Test vector: a link-statistics frame whose uplink link quality
byte (third payload byte) is lq. -/
def linkStatsFrame (lq : Nat) : List Nat :=
  let base := [0xC8, 12, 0x14, 10, 11, lq, 3, 0, 1, 2, 20, 90, 4]
  base ++ [crc8 base]

/-- Test vector: a sync/length/CRC-valid device-info frame whose body
after the two address bytes is name "SL", serial "ABCD", hw_version 1,
sw_version 2, param_count 7, protocol_version 3. -/
def deviceInfoFrame : List Nat :=
  let base := [0xEA, 21, 0x29, 0xEA, 0xEE, 83, 76, 0, 65, 66, 67, 68,
               1, 0, 0, 0, 2, 0, 0, 0, 7, 3]
  base ++ [crc8 base]

/-- Test vector: a sync/length/CRC-valid frame of type 0x29 that
contains no zero byte anywhere. -/
def crashFrame : List Nat :=
  let base := [0xC8, 3, 0x29, 1]
  base ++ [crc8 base]

/- ------------------------------------------------------------------
Theorems.
------------------------------------------------------------------ -/

/-- Dict-model fact: looking up the key just inserted returns the
inserted value. -/
theorem lookupA_insertA_self {α : Type} (l : List (Nat × α)) (k : Nat) (v : α) :
    lookupA (insertA l k v) k = some v := by
  induction l with
  | nil => simp [insertA, lookupA]
  | cons p t ih =>
    by_cases h : p.1 = k
    · simp [insertA, h, lookupA, List.find?]
    · have hb : (p.1 == k) = false := by simpa using h
      simp [insertA, h, lookupA, List.find?, hb] at ih ⊢
      exact ih

/-- C1 (code_bug evidence): on a sync/length/CRC-valid device-info
frame, handle_rx hands the whole raw frame to parse_device_info, so
the published name starts at the sync byte and carries the five
header bytes (sync, length, type, destination, origin) in front of
the body name; parsing the body that follows the two address bytes
(as the claim describes) gives the plain name instead, and the two
decodes disagree. -/
theorem c1_device_info_decoded_from_full_frame :
    (handle_rx { freshDev with tx_state := ConnState.CONNECTING } 1 true
        deviceInfoFrame).map (fun r => r.1.device_info.map DeviceInfo.name) =
      some (some (bytesToString [0xEA, 21, 0x29, 0xEA, 0xEE, 83, 76])) ∧
    (parse_device_info (deviceInfoFrame.drop 5)).map DeviceInfo.name = some "SL" ∧
    (parse_device_info (deviceInfoFrame.drop 5)).map DeviceInfo.param_count = some 7 ∧
    bytesToString [0xEA, 21, 0x29, 0xEA, 0xEE, 83, 76] ≠ "SL" ∧
    (parse_device_info deviceInfoFrame).map DeviceInfo.name ≠
      (parse_device_info (deviceInfoFrame.drop 5)).map DeviceInfo.name := by
  decide

/-- C10: the concrete frame [0xC8, 3, 0x29, 1, 51] passes the sync,
length and CRC checks of handle_rx, has frame type 0x29 and contains
no zero byte; the null-terminator scan of parse_device_info runs off
its end (scanNullTerm = none), and since the try block of handle_rx
covers only the serial read, the resulting IndexError escapes
handle_rx (modelled as the none result): one such frame aborts the
session loop. -/
theorem c10_nonzero_device_info_frame_crashes :
    crashFrame.getD 0 0 = 0xC8 ∧
    crashFrame.length - 2 = crashFrame.getD 1 0 ∧
    crc8 crashFrame.dropLast = crashFrame.getLastD 0 ∧
    crashFrame.getD 2 0 = 0x29 ∧
    crashFrame.all (fun b => b ≠ 0) ∧
    scanNullTerm crashFrame = none ∧
    parse_device_info crashFrame = none ∧
    handle_rx { freshDev with tx_state := ConnState.CONNECTING } 1 true
      crashFrame = none := by
  decide

/-- C9 (counterexample): the final byte 0x7F of the ping packet is, in
fact, numerically equal to the plain CRC8 computed over all preceding
bytes of the packet, so the claim that this frame does not end in the
plain CRC8-over-preceding-bytes trailer is false. -/
theorem c9_ping_crc_counterexample :
    ping_packet.getLastD 0 = crc8 ping_packet.dropLast := by
  decide

/-- Helper: any packet of the shape body ++ [crc8 body] ends in the
plain CRC8 over all its preceding bytes. -/
theorem trailer_plain (l : List Nat) :
    (l ++ [crc8 l]).getLastD 0 = crc8 ((l ++ [crc8 l]).dropLast) := by
  simp

/-- C9 (amended): the ping packet is the fixed byte sequence
[0xEE, 0x04, 0x28, 0x00, crc8 of the first four bytes xor 2, 0x7F],
its fifth byte evaluating to 0xEF; update sends exactly this packet on
the first elapsed tick of a fresh session; request and channel frames
end in the plain CRC8 over their preceding bytes, and the ping frame,
despite being built from the constant trailer 0x7F, ends in a byte
that coincides with that same plain CRC8. -/
theorem c9_ping_packet_layout :
    ping_packet = [0xEE, 0x04, 0x28, 0x00, crc8 ping_base ^^^ 2, 0x7F] ∧
    ping_packet = [0xEE, 0x04, 0x28, 0x00, 0xEF, 0x7F] ∧
    updateTick freshDev 6 true =
      some ({ freshDev with tx_state := ConnState.CONNECTING, last_tx := 6 },
        [ping_packet]) ∧
    (∀ pn ci, (request_parameter_packet pn ci).getLastD 0 =
      crc8 (request_parameter_packet pn ci).dropLast) ∧
    (∀ chs, (rc_packet chs).getLastD 0 = crc8 (rc_packet chs).dropLast) ∧
    ping_packet.getLastD 0 = crc8 ping_packet.dropLast := by
  refine ⟨by decide, by decide, by decide, ?_, ?_, by decide⟩
  · intro pn ci
    exact trailer_plain [0xEE, 0x06, 0x2C, 0xEE, 0xEA, pn, ci]
  · intro chs
    exact trailer_plain ([0xC8, 0x18, 0x16] ++ packChans chs 0 0)

/-- C2 (counterexample): with chunk payloads [0, 10, 65, 0], [66, 0]
and [5] for parameter 5, feeding the frames in decreasing order
2, 1, 0 publishes the decoded record of the concatenation, while
feeding them in the order 0, 2, 1 publishes the record parsed from the
rem-0 payload alone (here the raw bytes [5], because that one-byte
buffer fails to parse); the two published records differ, refuting
order independence. -/
theorem c2_chunk_order_counterexample :
    (((crsf_parameter_settings freshDev 1 (paramFrame 5 2 [0, 10, 65, 0])).bind
        (fun r => crsf_parameter_settings r.1 1 (paramFrame 5 1 [66, 0]))).bind
        (fun r => crsf_parameter_settings r.1 1 (paramFrame 5 0 [5]))).map
      (fun r => lookupA r.1.parameters 5) =
        some (some (publishRecord 5 0 ([0, 10, 65, 0] ++ [66, 0] ++ [5]))) ∧
    (((crsf_parameter_settings freshDev 1 (paramFrame 5 0 [5])).bind
        (fun r => crsf_parameter_settings r.1 1 (paramFrame 5 2 [0, 10, 65, 0]))).bind
        (fun r => crsf_parameter_settings r.1 1 (paramFrame 5 1 [66, 0]))).map
      (fun r => lookupA r.1.parameters 5) =
        some (some (ParamRecord.raw [5])) ∧
    publishRecord 5 0 ([0, 10, 65, 0] ++ [66, 0] ++ [5]) ≠ ParamRecord.raw [5] := by
  decide

/-- C3 (counterexample): one handle_rx call on a drained buffer that
holds two back-to-back valid link-statistics frames dispatches only
the first frame: the published uplink link quality stays 80 (the first
frame), not 0 (the second frame), unlike dispatching the two frames by
separate calls, so the second frame is silently dropped. -/
theorem c3_two_frames_counterexample :
    (handle_rx freshDev 7 true (linkStatsFrame 80 ++ linkStatsFrame 0)).map
        (fun r => r.1.link_stats.uplink_link_quality) = some 80 ∧
    ((handle_rx freshDev 7 true (linkStatsFrame 80)).bind
        (fun r => handle_rx r.1 7 true (linkStatsFrame 0))).map
        (fun r => r.1.link_stats.uplink_link_quality) = some 0 ∧
    (80 : Nat) ≠ 0 := by
  decide

/-- C4 (counterexample): for a 3-chunk parameter, after the chunks
with chunks_remaining 2 and then 1 have been stored, the buffer slots
are [empty, filled, filled], whose first empty slot in a
highest-to-lowest scan is slot 0; the handler nevertheless emits the
single request with chunk index 2 (the position of that slot in the
reversed scan), not the claimed slot index 0. -/
theorem c4_scan_position_counterexample :
    ((crsf_parameter_settings freshDev 1 (paramFrame 9 2 [1])).bind
        (fun r => crsf_parameter_settings r.1 1 (paramFrame 9 1 [2]))).map
      (fun r => (r.2, lookupA r.1.param_buff 9)) =
        some ([request_parameter_packet 9 2],
          some ⟨3, [none, some [2], some [1]]⟩) ∧
    specFirstEmptySlotDesc [none, some [2], some [1]] = some 0 ∧
    request_parameter_packet 9 2 ≠ request_parameter_packet 9 0 := by
  decide

/-- C8 (counterexample): in a freshly constructed session channel 2
defaults to 0, not to the center value 992, and the first outbound
channel frame carries sixteen zeros, a value outside the valid range
172..1811, so neither the claimed defaults nor the claimed range
invariant hold. -/
theorem c8_default_channels_counterexample :
    freshDev.rc_channels.getD 2 0 = 0 ∧
    (0 : Nat) ≠ 992 ∧
    (update_rc_channels freshDev 1 true).2 = [rc_packet (List.replicate 16 0)] ∧
    unpackChannels (packChans (List.replicate 16 0) 0 0) = List.replicate 16 0 ∧
    ¬ (172 ≤ (0 : Nat)) := by
  decide

/-- C6: whenever storing an incoming chunk completes the buffer and
the combined bytes fail to parse, crsf_parameter_settings returns
normally (no exception escapes the handler), publishes the raw
combined bytes in the parameter table under that index and writes
nothing out. -/
theorem c6_parse_failure_publishes_raw (st : Dev) (now : ℤ) (raw : List Nat)
    (pn ci : Nat) (buf : ChunkBuf)
    (h5 : raw[5]? = some pn) (h6 : raw[6]? = some ci)
    (hst : storeChunk (chunkStoreOf st pn ci) ci (raw.dropLast.drop 7) =
      StoreOutcome.stored buf)
    (hf : allFilled buf = true)
    (hp : parseParamFull pn ci (combineChunks buf) = none) :
    crsf_parameter_settings st now raw =
      some ({ st with
        param_buff := insertA st.param_buff pn (clearChunks buf)
        parameters := insertA st.parameters pn
          (ParamRecord.raw (combineChunks buf)) }, []) ∧
    (crsf_parameter_settings st now raw).map (fun r => lookupA r.1.parameters pn) =
      some (some (ParamRecord.raw (combineChunks buf))) := by
  have he : crsf_parameter_settings st now raw =
      some ({ st with
        param_buff := insertA st.param_buff pn (clearChunks buf)
        parameters := insertA st.parameters pn
          (ParamRecord.raw (combineChunks buf)) }, []) := by
    simp [crsf_parameter_settings, h5, h6, hst, hf, publishRecord, hp]
  refine ⟨he, ?_⟩
  rw [he]
  simp [lookupA_insertA_self]

/-- Helper: a findIdx? scan that returns position k (relative to the
start accumulator i) found a matching element there and nothing
matching before it. -/
theorem findIdx?_acc_spec {α : Type} (p : α → Bool) :
    ∀ (l : List α) (i k : Nat), List.findIdx? p l i = some k →
      i ≤ k ∧ k - i < l.length ∧
      (∃ a, l[k - i]? = some a ∧ p a = true) ∧
      (∀ j a, j < k - i → l[j]? = some a → p a = false) := by
  intro l
  induction l with
  | nil => intro i k h; simp [List.findIdx?] at h
  | cons b t ih =>
    intro i k h
    rw [show List.findIdx? p (b :: t) i =
          if p b then some i else List.findIdx? p t (i + 1) from rfl] at h
    by_cases hb : p b
    · rw [if_pos hb] at h
      obtain rfl : i = k := by simpa using h
      refine ⟨le_refl i, by simp, ⟨b, by simp, hb⟩, ?_⟩
      intro j a hj ha
      omega
    · rw [if_neg hb] at h
      obtain ⟨h1, h2, ⟨a, ha, hpa⟩, h4⟩ := ih (i + 1) k h
      refine ⟨by omega, ?_, ⟨a, ?_, hpa⟩, ?_⟩
      · simp only [List.length_cons]; omega
      · rw [show k - i = (k - (i + 1)) + 1 by omega]
        simpa using ha
      · intro j c hj hc
        match j, hc with
        | 0, hc =>
          obtain rfl : b = c := by simpa using hc
          simpa using hb
        | j + 1, hc =>
          exact h4 j c (by omega) (by simpa using hc)

/-- Helper: a list on which some element satisfies the predicate has a
successful findIdx? scan. -/
theorem findIdx?_acc_exists {α : Type} (p : α → Bool) :
    ∀ (l : List α) (i : Nat), (∃ a ∈ l, p a = true) →
      ∃ k, List.findIdx? p l i = some k := by
  intro l
  induction l with
  | nil => intro i h; simp at h
  | cons b t ih =>
    intro i h
    rw [show List.findIdx? p (b :: t) i =
          if p b then some i else List.findIdx? p t (i + 1) from rfl]
    by_cases hb : p b
    · exact ⟨i, by rw [if_pos hb]⟩
    · obtain ⟨a, ha, hpa⟩ := h
      rcases List.mem_cons.mp ha with rfl | hat
      · exact absurd hpa hb
      · obtain ⟨k, hk⟩ := ih (i + 1) ⟨a, hat, hpa⟩
        exact ⟨k, by rw [if_neg hb]; exact hk⟩

/-- Helper: an incompletely filled buffer has an empty slot, hence a
successful missing-chunk scan. -/
theorem findMissingReq_of_not_filled (buf : ChunkBuf)
    (hnf : allFilled buf = false) : ∃ k, findMissingReq buf.chunks = some k := by
  have hex : ∃ c ∈ buf.chunks.reverse, c.isNone = true := by
    have h2 : ¬ ∀ c ∈ buf.chunks, c.isSome = true := by
      intro hall
      rw [allFilled, List.all_eq_true.mpr hall] at hnf
      cases hnf
    push_neg at h2
    obtain ⟨c, hc, hns⟩ := h2
    exact ⟨c, List.mem_reverse.mpr hc, by cases c <;> simp_all⟩
  exact findIdx?_acc_exists _ _ 0 hex

/-- C4 (amended): after an incoming chunk is stored and some slot is
still empty, the handler emits exactly one chunk request; its chunk
index k is the position of the first empty slot met when walking the
slots from the highest index down (k positions from the top), i.e.
slot length-1-k is empty and every slot above it is filled.  The
claimed identification of the request index with the empty slot's own
index fails (see the counterexample), but for a 3-chunk parameter of
which only chunks_remaining = 2 arrived both readings give index 1. -/
theorem c4_missing_chunk_request (st : Dev) (now : ℤ) (raw : List Nat)
    (pn ci : Nat) (buf : ChunkBuf)
    (h5 : raw[5]? = some pn) (h6 : raw[6]? = some ci)
    (hst : storeChunk (chunkStoreOf st pn ci) ci (raw.dropLast.drop 7) =
      StoreOutcome.stored buf)
    (hnf : allFilled buf = false) :
    ∃ k, findMissingReq buf.chunks = some k ∧
      crsf_parameter_settings st now raw =
        some ({ st with param_buff := insertA st.param_buff pn buf, last_tx := now },
          [request_parameter_packet pn k]) ∧
      k < buf.chunks.length ∧
      buf.chunks[buf.chunks.length - 1 - k]? = some none ∧
      (∀ j, buf.chunks.length - 1 - k < j → j < buf.chunks.length →
        ∃ q, buf.chunks[j]? = some (some q)) := by
  obtain ⟨k, hk⟩ := findMissingReq_of_not_filled buf hnf
  have hk0 : List.findIdx? (fun c => c.isNone) buf.chunks.reverse 0 = some k := hk
  obtain ⟨-, h2, ⟨a, ha, hpa⟩, h4⟩ := findIdx?_acc_spec _ _ 0 k hk0
  rw [List.length_reverse] at h2
  simp only [Nat.sub_zero] at h2 ha h4
  refine ⟨k, hk, ?_, h2, ?_, ?_⟩
  · simp [crsf_parameter_settings, h5, h6, hst, hnf, hk]
  · obtain rfl : a = none := by
      cases a
      · rfl
      · simp at hpa
    rwa [List.getElem?_reverse h2] at ha
  · intro j hj1 hj2
    rcases hg : buf.chunks[j]? with _ | c
    · rw [List.getElem?_eq_none_iff] at hg
      omega
    · have hrev : buf.chunks.reverse[buf.chunks.length - 1 - j]? = some c := by
        rw [List.getElem?_reverse (by omega),
          show buf.chunks.length - 1 - (buf.chunks.length - 1 - j) = j by omega]
        exact hg
      have hiso := h4 (buf.chunks.length - 1 - j) c (by omega) hrev
      cases c with
      | none => simp at hiso
      | some q => exact ⟨q, rfl⟩

/-- Dict-model fact: inserting twice under the same key keeps only the
second value. -/
theorem insertA_insertA_self {α : Type} (l : List (Nat × α)) (k : Nat) (v w : α) :
    insertA (insertA l k v) k w = insertA l k w := by
  induction l with
  | nil => simp [insertA]
  | cons p t ih =>
    by_cases h : p.1 = k
    · simp [insertA, h]
    · simp [insertA, h, ih]

/-- Helper: the parameter number sits at index 5 of a 0x2B frame. -/
theorem paramFrame_idx5 (pn ci : Nat) (p : List Nat) :
    (paramFrame pn ci p)[5]? = some pn := by
  simp [paramFrame]

/-- Helper: the chunks-remaining byte sits at index 6 of a 0x2B
frame. -/
theorem paramFrame_idx6 (pn ci : Nat) (p : List Nat) :
    (paramFrame pn ci p)[6]? = some ci := by
  simp [paramFrame]

/-- Helper: stripping the CRC byte and the seven header bytes of a
0x2B frame leaves exactly the chunk payload. -/
theorem paramFrame_payload (pn ci : Nat) (p : List Nat) :
    (paramFrame pn ci p).dropLast.drop 7 = p := by
  simp only [paramFrame, List.dropLast_concat]
  simp

/-- C2 (amended): feeding the chunk frames of one parameter with
chunks_remaining = 2, 1, 0 in strictly decreasing order publishes a
record equal to parsing the concatenation of the three payloads in
that order; feeding them in the order 0, 2, 1 instead publishes only
the record parsed from the rem-0 payload and drops the other two
chunks (the first chunk sizes the buffer, so reassembly is
order-dependent, not order-independent as claimed). -/
theorem c2_decreasing_order_reassembly (st : Dev) (now : ℤ) (pn : Nat)
    (p2 p1 p0 : List Nat) (h : lookupA st.param_buff pn = none) :
    (((crsf_parameter_settings st now (paramFrame pn 2 p2)).bind
        (fun r => crsf_parameter_settings r.1 now (paramFrame pn 1 p1))).bind
        (fun r => crsf_parameter_settings r.1 now (paramFrame pn 0 p0))).map
      (fun r => lookupA r.1.parameters pn) =
      some (some (publishRecord pn 0 (p2 ++ p1 ++ p0))) ∧
    (((crsf_parameter_settings st now (paramFrame pn 0 p0)).bind
        (fun r => crsf_parameter_settings r.1 now (paramFrame pn 2 p2))).bind
        (fun r => crsf_parameter_settings r.1 now (paramFrame pn 1 p1))).map
      (fun r => lookupA r.1.parameters pn) =
      some (some (publishRecord pn 0 p0)) := by
  constructor
  · have e1 : crsf_parameter_settings st now (paramFrame pn 2 p2) =
        some ({ st with
          param_buff := insertA st.param_buff pn ⟨3, [none, none, some p2]⟩
          last_tx := now }, [request_parameter_packet pn 1]) := by
      simp [crsf_parameter_settings, paramFrame_idx5, paramFrame_idx6,
        paramFrame_payload, chunkStoreOf, h, storeChunk, allFilled,
        findMissingReq, List.findIdx?, List.replicate]
    rw [e1]
    have e2 : crsf_parameter_settings
        ({ st with
          param_buff := insertA st.param_buff pn ⟨3, [none, none, some p2]⟩
          last_tx := now } : Dev) now (paramFrame pn 1 p1) =
        some ({ st with
          param_buff := insertA st.param_buff pn ⟨3, [none, some p1, some p2]⟩
          last_tx := now }, [request_parameter_packet pn 2]) := by
      have hl : lookupA (insertA st.param_buff pn
          (⟨3, [none, none, some p2]⟩ : ChunkBuf)) pn =
          some ⟨3, [none, none, some p2]⟩ := lookupA_insertA_self ..
      simp [crsf_parameter_settings, paramFrame_idx5, paramFrame_idx6,
        paramFrame_payload, chunkStoreOf, hl, storeChunk, allFilled,
        findMissingReq, List.findIdx?, insertA_insertA_self]
    rw [Option.some_bind, e2]
    have e3 : crsf_parameter_settings
        ({ st with
          param_buff := insertA st.param_buff pn ⟨3, [none, some p1, some p2]⟩
          last_tx := now } : Dev) now (paramFrame pn 0 p0) =
        some ({ st with
          param_buff := insertA st.param_buff pn ⟨3, [none, none, none]⟩
          parameters := insertA st.parameters pn
            (publishRecord pn 0 (p2 ++ p1 ++ p0))
          last_tx := now }, []) := by
      have hl : lookupA (insertA st.param_buff pn
          (⟨3, [none, some p1, some p2]⟩ : ChunkBuf)) pn =
          some ⟨3, [none, some p1, some p2]⟩ := lookupA_insertA_self ..
      simp [crsf_parameter_settings, paramFrame_idx5, paramFrame_idx6,
        paramFrame_payload, chunkStoreOf, hl, storeChunk, allFilled,
        combineChunks, clearChunks, insertA_insertA_self, List.replicate]
    rw [Option.some_bind, e3]
    simp [lookupA_insertA_self]
  · have e1 : crsf_parameter_settings st now (paramFrame pn 0 p0) =
        some ({ st with
          param_buff := insertA st.param_buff pn ⟨1, [none]⟩
          parameters := insertA st.parameters pn (publishRecord pn 0 p0) }, []) := by
      simp [crsf_parameter_settings, paramFrame_idx5, paramFrame_idx6,
        paramFrame_payload, chunkStoreOf, h, storeChunk, allFilled,
        combineChunks, clearChunks, List.replicate]
    rw [e1]
    have e2 : crsf_parameter_settings
        ({ st with
          param_buff := insertA st.param_buff pn ⟨1, [none]⟩
          parameters := insertA st.parameters pn (publishRecord pn 0 p0) } : Dev)
        now (paramFrame pn 2 p2) =
        some ({ st with
          param_buff := insertA st.param_buff pn ⟨1, [none]⟩
          parameters := insertA st.parameters pn (publishRecord pn 0 p0) }, []) := by
      have hl : lookupA (insertA st.param_buff pn (⟨1, [none]⟩ : ChunkBuf)) pn =
          some ⟨1, [none]⟩ := lookupA_insertA_self ..
      simp [crsf_parameter_settings, paramFrame_idx5, paramFrame_idx6,
        paramFrame_payload, chunkStoreOf, hl, storeChunk, insertA_insertA_self]
    rw [Option.some_bind, e2]
    have e3 : crsf_parameter_settings
        ({ st with
          param_buff := insertA st.param_buff pn ⟨1, [none]⟩
          parameters := insertA st.parameters pn (publishRecord pn 0 p0) } : Dev)
        now (paramFrame pn 1 p1) =
        some ({ st with
          param_buff := insertA st.param_buff pn ⟨1, [none]⟩
          parameters := insertA st.parameters pn (publishRecord pn 0 p0) }, []) := by
      have hl : lookupA (insertA st.param_buff pn (⟨1, [none]⟩ : ChunkBuf)) pn =
          some ⟨1, [none]⟩ := lookupA_insertA_self ..
      simp [crsf_parameter_settings, paramFrame_idx5, paramFrame_idx6,
        paramFrame_payload, chunkStoreOf, hl, storeChunk, insertA_insertA_self]
    rw [Option.some_bind, e3]
    simp [lookupA_insertA_self]

/-- C3 (amended): one handle_rx call dispatches at most the first
frame of the drained bytes: appending any further nonempty byte tail
after one complete, 64-byte-bounded frame leaves the result of
handle_rx unchanged — the tail is truncated away, not dispatched. -/
theorem c3_single_frame_per_call (st : Dev) (now : ℤ) (f rest : List Nat)
    (h5 : 5 ≤ f.length) (hlen : f.getD 1 0 = f.length - 2) (h64 : f.length ≤ 64)
    (hr : rest ≠ []) :
    handle_rx st now true (f ++ rest) = handle_rx st now true f := by
  have hrl : 0 < rest.length := List.length_pos.mpr hr
  have hfr : (f ++ rest).length = f.length + rest.length := List.length_append ..
  have hg0 : (f ++ rest).getD 0 0 = f.getD 0 0 := by
    rw [List.getD_eq_getElem?_getD, List.getD_eq_getElem?_getD,
      List.getElem?_append_left (by omega)]
  have hg1 : (f ++ rest).getD 1 0 = f.getD 1 0 := by
    rw [List.getD_eq_getElem?_getD, List.getD_eq_getElem?_getD,
      List.getElem?_append_left (by omega)]
  by_cases hsync : f.getD 0 0 = 0x00 ∨ f.getD 0 0 = 0xEA ∨ f.getD 0 0 = 0x0C ∨
      f.getD 0 0 = 0xC8
  · have hLHS : handle_rx st now true (f ++ rest) = handle_frame st now f := by
      simp only [handle_rx]
      rw [if_neg (by simp), if_neg (by omega), if_neg (by omega),
        if_neg (show ¬¬_ by rw [hg0]; exact not_not_intro hsync),
        if_neg (by rw [hg1]; omega), if_pos (by rw [hg1]; omega),
        show (f ++ rest).getD 1 0 + 2 = f.length by rw [hg1]; omega,
        List.take_left]
    have hRHS : handle_rx st now true f = handle_frame st now f := by
      simp only [handle_rx]
      rw [if_neg (by simp), if_neg (by omega), if_neg (by omega),
        if_neg (show ¬¬_ from not_not_intro hsync), if_pos (by omega)]
    rw [hLHS, hRHS]
  · have hLHS : handle_rx st now true (f ++ rest) = some (st, []) := by
      simp only [handle_rx]
      rw [if_neg (by simp), if_neg (by omega), if_neg (by omega),
        if_pos (show ¬_ by rw [hg0]; exact hsync)]
    have hRHS : handle_rx st now true f = some (st, []) := by
      simp only [handle_rx]
      rw [if_neg (by simp), if_neg (by omega), if_neg (by omega), if_pos hsync]
    rw [hLHS, hRHS]

/-- Helper: the battery decoder never touches the TX state. -/
theorem tx_battery (st : Dev) (data : List Nat) (s : Dev)
    (h : crsf_battery_sensor st data = some s) : s.tx_state = st.tx_state := by
  simp only [crsf_battery_sensor] at h
  obtain ⟨v, hv, h⟩ := Option.bind_eq_some.mp h
  simp only [Option.pure_def, Option.some.injEq] at h
  rw [← h]

/-- Helper: the link-statistics decoder never touches the TX state
(it moves only the RX state). -/
theorem tx_link_stats (st : Dev) (now : ℤ) (data : List Nat) (s : Dev)
    (h : crsf_link_statistics st now data = some s) : s.tx_state = st.tx_state := by
  simp only [crsf_link_statistics] at h
  obtain ⟨b0, h0, h⟩ := Option.bind_eq_some.mp h
  obtain ⟨b1, h1, h⟩ := Option.bind_eq_some.mp h
  obtain ⟨b2, h2, h⟩ := Option.bind_eq_some.mp h
  obtain ⟨b3, h3, h⟩ := Option.bind_eq_some.mp h
  obtain ⟨b4, h4, h⟩ := Option.bind_eq_some.mp h
  obtain ⟨b5, h5, h⟩ := Option.bind_eq_some.mp h
  obtain ⟨b6, h6, h⟩ := Option.bind_eq_some.mp h
  obtain ⟨b7, h7, h⟩ := Option.bind_eq_some.mp h
  obtain ⟨b8, h8, h⟩ := Option.bind_eq_some.mp h
  obtain ⟨b9, h9, h⟩ := Option.bind_eq_some.mp h
  split at h <;> (simp only [Option.pure_def, Option.some.injEq] at h; rw [← h])

/-- Helper: the radio-id decoder never touches the TX state. -/
theorem tx_radio_id (st : Dev) (data : List Nat) (s : Dev)
    (h : crsf_radio_id st data = some s) : s.tx_state = st.tx_state := by
  simp only [crsf_radio_id] at h
  obtain ⟨v, hv, h⟩ := Option.bind_eq_some.mp h
  split at h <;> (simp only [Option.pure_def, Option.some.injEq] at h; rw [← h])

/-- Helper: the legacy RC-channels decoder never touches any state. -/
theorem tx_rc_packed (st : Dev) (data : List Nat) (s : Dev)
    (h : crsf_rc_channels_packed st data = some s) : s = st := by
  simp only [crsf_rc_channels_packed] at h
  split at h
  · simpa using h.symm
  · simp at h

/-- Helper: the parameter-settings handler never touches the TX
state. -/
theorem tx_pss (st : Dev) (now : ℤ) (raw : List Nat) (r : Dev × List (List Nat))
    (h : crsf_parameter_settings st now raw = some r) :
    r.1.tx_state = st.tx_state := by
  simp only [crsf_parameter_settings] at h
  obtain ⟨pn, h5, h⟩ := Option.bind_eq_some.mp h
  obtain ⟨ci, h6, h⟩ := Option.bind_eq_some.mp h
  split at h
  · simp only [Option.pure_def, Option.some.injEq] at h; rw [← h]
  · split at h
    · simp only [Option.pure_def, Option.some.injEq] at h; rw [← h]
    · split at h <;> (simp only [Option.pure_def, Option.some.injEq] at h; rw [← h])
  · split at h
    · simp only [Option.pure_def, Option.some.injEq] at h; rw [← h]
    · split at h <;> (simp only [Option.pure_def, Option.some.injEq] at h; rw [← h])

/-- Helper: dispatching one checked frame leaves the TX state alone
except that a device-info frame received while CONNECTING moves it to
PARAMETERS. -/
theorem tx_handle_frame (st : Dev) (now : ℤ) (data : List Nat)
    (r : Dev × List (List Nat)) (h : handle_frame st now data = some r) :
    r.1.tx_state = st.tx_state ∨
      (st.tx_state = ConnState.CONNECTING ∧
        r.1.tx_state = ConnState.PARAMETERS) := by
  simp only [handle_frame] at h
  obtain ⟨last, hlast, h⟩ := Option.bind_eq_some.mp h
  split at h
  · left; simp only [Option.pure_def, Option.some.injEq] at h; rw [← h]
  · obtain ⟨ft, hft, h⟩ := Option.bind_eq_some.mp h
    split at h
    · obtain ⟨s, hs, h⟩ := Option.map_eq_some'.mp h
      left; rw [← h]; exact tx_battery st data s hs
    · split at h
      · obtain ⟨s, hs, h⟩ := Option.map_eq_some'.mp h
        left; rw [← h]; exact tx_link_stats st now data s hs
      · split at h
        · obtain ⟨s, hs, h⟩ := Option.map_eq_some'.mp h
          have := tx_rc_packed st data s hs
          left; rw [← h, this]
        · split at h
          · obtain ⟨di, hdi, h⟩ := Option.map_eq_some'.mp h
            rw [← h]
            by_cases hc : st.tx_state = ConnState.CONNECTING
            · right
              refine ⟨hc, ?_⟩
              simp [hc]
            · left
              simp [hc]
          · split at h
            · left; exact tx_pss st now data r h
            · split at h
              · obtain ⟨s, hs, h⟩ := Option.map_eq_some'.mp h
                left; rw [← h]; exact tx_radio_id st data s hs
              · left; simp only [Option.pure_def, Option.some.injEq] at h; rw [← h]

/-- Helper: one handle_rx call leaves the TX state alone except for
the CONNECTING to PARAMETERS move on a device-info frame. -/
theorem tx_handle_rx (st : Dev) (now : ℤ) (so : Bool) (incoming : List Nat)
    (r : Dev × List (List Nat)) (h : handle_rx st now so incoming = some r) :
    r.1.tx_state = st.tx_state ∨
      (st.tx_state = ConnState.CONNECTING ∧
        r.1.tx_state = ConnState.PARAMETERS) := by
  simp only [handle_rx] at h
  split at h
  · left; simp only [Option.pure_def, Option.some.injEq] at h; rw [← h]
  · split at h
    · left; simp only [Option.pure_def, Option.some.injEq] at h; rw [← h]
    · split at h
      · left; simp only [Option.pure_def, Option.some.injEq] at h; rw [← h]
      · split at h
        · left; simp only [Option.pure_def, Option.some.injEq] at h; rw [← h]
        · split at h
          · exact tx_handle_frame st now incoming r h
          · split at h
            · exact tx_handle_frame st now _ r h
            · left; simp only [Option.pure_def, Option.some.injEq] at h; rw [← h]

/-- Helper: update_rc_channels never touches the TX state. -/
theorem tx_update_rc (st : Dev) (now : ℤ) (so : Bool) :
    (update_rc_channels st now so).1.tx_state = st.tx_state := by
  simp only [update_rc_channels]
  split <;> rfl

/-- Helper: the timer-driven transmit step can only keep the TX state,
move DISCONNECTED or CONNECTING to CONNECTING, or move PARAMETERS to
CONNECTED. -/
theorem tick_tx (st : Dev) (now : ℤ) (so : Bool) (r : Dev × List (List Nat))
    (h : updateTick st now so = some r) :
    r.1.tx_state = st.tx_state ∨
      ((st.tx_state = ConnState.DISCONNECTED ∨
        st.tx_state = ConnState.CONNECTING) ∧
        r.1.tx_state = ConnState.CONNECTING) ∨
      (st.tx_state = ConnState.PARAMETERS ∧
        r.1.tx_state = ConnState.CONNECTED) := by
  simp only [updateTick] at h
  split at h
  · split at h
    case _ heq =>
      split at h
      · simp only [Option.pure_def, Option.some.injEq] at h
        right; left
        constructor
        · cases hst : st.tx_state <;> simp_all
        · rw [← h]
      · simp at h
    case _ heq =>
      split at h
      · simp only [Option.pure_def, Option.some.injEq] at h
        right; left
        constructor
        · cases hst : st.tx_state <;> simp_all
        · rw [← h]
      · simp at h
    case _ heq =>
      split at h
      · simp only [Option.pure_def, Option.some.injEq] at h
        rw [← h]
        split <;> split <;>
          first
          | (right; right; exact ⟨heq, rfl⟩)
          | (left; rfl)
      · simp at h
    case _ => left; simp only [Option.pure_def, Option.some.injEq] at h; rw [← h]
    case _ heq =>
      split at h
      · split at h
        · simp only [Option.pure_def, Option.some.injEq] at h
          left
          rw [← h]
          simp [tx_update_rc]
        · simp at h
      · simp only [Option.pure_def, Option.some.injEq] at h
        left
        rw [← h]
        simp [tx_update_rc]
  · left; simp only [Option.pure_def, Option.some.injEq] at h; rw [← h]

/-- Helper: paramCountD ignores every field except device_info. -/
theorem paramCountD_eq (st st' : Dev) (h : st.device_info = st'.device_info) :
    paramCountD st = paramCountD st' := by
  simp [paramCountD, h]

/-- C5: the TX connection state machine.  (1) The first elapsed tick
after construction moves DISCONNECTED to CONNECTING and sends the ping
packet; (2) every elapsed tick in DISCONNECTED or CONNECTING sends the
ping packet and lands in CONNECTING; (3) a sync/length/CRC-valid
device-info frame received while CONNECTING moves the state to
PARAMETERS; (4) an elapsed tick in PARAMETERS sends one parameter
request and reaches CONNECTED exactly when the (possibly advanced)
param_idx has reached the published param_count; (5) handle_rx changes
the TX state only through the CONNECTING-to-PARAMETERS move, and
(6) the tick step only through the moves listed above. -/
theorem c5_tx_state_machine :
    (∀ now : ℤ, timeout < now →
      update freshDev now true [] =
        some ({ freshDev with tx_state := ConnState.CONNECTING, last_tx := now },
          [ping_packet])) ∧
    (∀ (st : Dev) (now : ℤ),
      (st.tx_state = ConnState.DISCONNECTED ∨
        st.tx_state = ConnState.CONNECTING) →
      timeout < now - st.last_tx →
      updateTick st now true =
        some ({ st with tx_state := ConnState.CONNECTING, last_tx := now },
          [ping_packet])) ∧
    (∀ (st : Dev) (now : ℤ) (data : List Nat) (di : DeviceInfo),
      st.tx_state = ConnState.CONNECTING →
      5 ≤ data.length → data.length ≤ 64 →
      data.getD 1 0 = data.length - 2 →
      (data.getD 0 0 = 0x00 ∨ data.getD 0 0 = 0xEA ∨ data.getD 0 0 = 0x0C ∨
        data.getD 0 0 = 0xC8) →
      data.getLast? = some (crc8 data.dropLast) →
      data[2]? = some 0x29 →
      parse_device_info data = some di →
      handle_rx st now true data =
        some ({ st with
          tx_state := ConnState.PARAMETERS
          device_info := some di }, [])) ∧
    (∀ (st : Dev) (now : ℤ), st.tx_state = ConnState.PARAMETERS →
      timeout < now - st.last_tx →
      ∃ r, updateTick st now true = some r ∧
        r.2 = [request_parameter_packet st.param_idx st.current_chunk] ∧
        r.1.param_idx = (if (lookupA st.parameters st.param_idx).isSome then
          st.param_idx + 1 else st.param_idx) ∧
        (r.1.tx_state = ConnState.CONNECTED ↔
          paramCountD st ≤ (if (lookupA st.parameters st.param_idx).isSome then
            st.param_idx + 1 else st.param_idx))) ∧
    (∀ (st : Dev) (now : ℤ) (so : Bool) (incoming : List Nat)
      (r : Dev × List (List Nat)), handle_rx st now so incoming = some r →
      r.1.tx_state = st.tx_state ∨
        (st.tx_state = ConnState.CONNECTING ∧
          r.1.tx_state = ConnState.PARAMETERS)) ∧
    (∀ (st : Dev) (now : ℤ) (so : Bool) (r : Dev × List (List Nat)),
      updateTick st now so = some r →
      r.1.tx_state = st.tx_state ∨
        ((st.tx_state = ConnState.DISCONNECTED ∨
          st.tx_state = ConnState.CONNECTING) ∧
          r.1.tx_state = ConnState.CONNECTING) ∨
        (st.tx_state = ConnState.PARAMETERS ∧
          r.1.tx_state = ConnState.CONNECTED)) := by
  refine ⟨?_, ?_, ?_, ?_,
    fun st now so inc r h => tx_handle_rx st now so inc r h,
    fun st now so r h => tick_tx st now so r h⟩
  · intro now h
    simp [update, updateTick, handle_rx, freshDev, h]
  · intro st now htx ht
    have hc : now - st.last_tx > timeout := ht
    rcases htx with h1 | h1 <;> simp [updateTick, h1, hc]
  · intro st now data di hst h5 h64 hlen hsync hcrc h2 hdi
    have c2 : ¬ (data.length < 5) := by omega
    have c3 : ¬ (data.length - 2 < 1) := by omega
    have hLHS : handle_rx st now true data = handle_frame st now data := by
      simp only [handle_rx]
      rw [if_neg (by simp), if_neg c2, if_neg c3,
        if_neg (show ¬¬_ from not_not_intro hsync), if_pos (by omega)]
    rw [hLHS]
    simp only [handle_frame]
    apply Option.bind_eq_some.mpr
    refine ⟨crc8 data.dropLast, hcrc, ?_⟩
    rw [if_neg (show ¬ (crc8 data.dropLast ≠ crc8 data.dropLast) from
      not_not_intro rfl)]
    apply Option.bind_eq_some.mpr
    refine ⟨41, h2, ?_⟩
    rw [if_neg (show ¬ ((41 : Nat) = 8) by decide),
      if_neg (show ¬ ((41 : Nat) = 20) by decide),
      if_neg (show ¬ ((41 : Nat) = 22) by decide),
      if_pos (show (41 : Nat) = 41 from rfl),
      hdi, Option.map_some', if_pos hst]
  · intro st now hst ht
    have hc : now - st.last_tx > timeout := ht
    simp only [updateTick, hst, if_pos hc, if_pos rfl]
    refine ⟨_, rfl, rfl, ?_, ?_⟩ <;>
      (split <;> split <;> simp_all [paramCountD])

/-- C8 (amended): a freshly constructed session holds channel 0 at the
distinctive non-center value 1300 and channels 1..15 at 0 (not at the
center 992); update_rc_channels overwrites only channels 0 and 1 and
holds every channel from 2 upward at its last set value; no range
clamping is applied, so the first outbound frame of a fresh session
packs sixteen zeros. -/
theorem c8_channel_defaults_and_hold :
    freshDev.rc_channels = 1300 :: List.replicate 15 0 ∧
    (∀ (st : Dev) (now : ℤ) (so : Bool) (i : Nat), 2 ≤ i →
      (update_rc_channels st now so).1.rc_channels.getD i 0 =
        st.rc_channels.getD i 0) ∧
    update_rc_channels freshDev 1 true =
      ({ freshDev with rc_channels := List.replicate 16 0, last_tx := 1 },
        [rc_packet (List.replicate 16 0)]) := by
  refine ⟨by decide, ?_, by decide⟩
  intro st now so i hi
  simp only [update_rc_channels]
  split
  · rfl
  · simp only [set_channels]
    split <;>
      (rw [List.getD_eq_getElem?_getD, List.getD_eq_getElem?_getD,
        List.getElem?_set_ne (by omega), List.getElem?_set_ne (by omega)])

/-- Helper: masking with 0xFF is reduction modulo 256. -/
theorem and255 (n : Nat) : n &&& 255 = n % 256 := by
  have := Nat.and_pow_two_sub_one_eq_mod n 8
  norm_num at this
  exact this

/-- Helper: or-ing a value shifted past the live bits of the
accumulator is addition. -/
theorem lor_shiftLeft_add (b v k : Nat) (h : b < 2 ^ k) :
    b ||| (v <<< k) = b + v * 2 ^ k := by
  apply Nat.eq_of_testBit_eq
  intro i
  rw [Nat.testBit_or, Nat.testBit_shiftLeft]
  rcases Nat.lt_or_ge i k with hik | hik
  · have h1 : (decide (k ≤ i) && v.testBit (i - k)) = false := by
      simp [Nat.not_le.mpr hik]
    rw [h1, Bool.or_false]
    have h2 : (b + v * 2 ^ k) % 2 ^ k = b := by
      rw [Nat.add_mul_mod_self_right]
      exact Nat.mod_eq_of_lt h
    have h3 := Nat.testBit_mod_two_pow (b + v * 2 ^ k) k i
    rw [h2] at h3
    rw [h3]
    simp [hik]
  · have h1 : b.testBit i = false :=
      Nat.testBit_lt_two_pow
        (lt_of_lt_of_le h (Nat.pow_le_pow_right (by norm_num) hik))
    rw [h1, Bool.false_or]
    have h2 : (b + v * 2 ^ k) >>> k = v := by
      rw [Nat.shiftRight_eq_div_pow,
        Nat.add_mul_div_right _ _ (Nat.pos_pow_of_pos k (by norm_num)),
        Nat.div_eq_of_lt h, zero_add]
    calc (decide (k ≤ i) && v.testBit (i - k)) = v.testBit (i - k) := by
          simp [hik]
      _ = ((b + v * 2 ^ k) >>> k).testBit (i - k) := by rw [h2]
      _ = (b + v * 2 ^ k).testBit (k + (i - k)) := Nat.testBit_shiftRight ..
      _ = (b + v * 2 ^ k).testBit i := by rw [Nat.add_sub_cancel' hik]

/-- Helper: the byte-emitting loop flushes exactly bits / 8 bytes that
are the little-endian base-256 digits of the accumulator, leaving the
remaining bits % 8 bits in the accumulator. -/
theorem emitWhileAux_spec : ∀ (fuel bits buffer : Nat), bits ≤ fuel →
    buffer < 2 ^ bits →
    Nat.ofDigits 256 (emitWhileAux fuel buffer bits).1 +
      (emitWhileAux fuel buffer bits).2.1 *
        256 ^ (emitWhileAux fuel buffer bits).1.length = buffer ∧
    (emitWhileAux fuel buffer bits).2.2 = bits % 8 ∧
    (emitWhileAux fuel buffer bits).1.length = bits / 8 ∧
    (emitWhileAux fuel buffer bits).2.1 < 2 ^ (bits % 8) := by
  intro fuel
  induction fuel with
  | zero =>
    intro bits buffer hb h
    obtain rfl : bits = 0 := by omega
    refine ⟨?_, rfl, rfl, h⟩
    simp [emitWhileAux]
  | succ fuel ih =>
    intro bits buffer hb h
    by_cases h8 : 8 ≤ bits
    · have hshift : buffer >>> 8 < 2 ^ (bits - 8) := by
        have hsplit : (2 : Nat) ^ bits = 2 ^ (bits - 8) * 2 ^ 8 := by
          rw [← pow_add]
          congr 1
          omega
        rw [Nat.shiftRight_eq_div_pow, Nat.div_lt_iff_lt_mul (by positivity)]
        omega
      obtain ⟨hv, hr2, hlen, hlt⟩ := ih (bits - 8) (buffer >>> 8) (by omega) hshift
      simp only [emitWhileAux, if_pos h8]
      refine ⟨?_, by omega, by rw [List.length_cons, hlen]; omega, ?_⟩
      · rw [Nat.ofDigits_cons, and255, List.length_cons, pow_succ]
        calc (buffer % 256 : Nat) + 256 * Nat.ofDigits 256
              (emitWhileAux fuel (buffer >>> 8) (bits - 8)).1 +
            (emitWhileAux fuel (buffer >>> 8) (bits - 8)).2.1 *
              (256 ^ (emitWhileAux fuel (buffer >>> 8) (bits - 8)).1.length * 256)
            = buffer % 256 + 256 * (Nat.ofDigits 256
                (emitWhileAux fuel (buffer >>> 8) (bits - 8)).1 +
              (emitWhileAux fuel (buffer >>> 8) (bits - 8)).2.1 *
                256 ^ (emitWhileAux fuel (buffer >>> 8) (bits - 8)).1.length) := by
              ring
          _ = buffer % 256 + 256 * (buffer >>> 8) := by rw [hv]
          _ = buffer % 256 + 256 * (buffer / 256) := by
              rw [Nat.shiftRight_eq_div_pow]
          _ = buffer := Nat.mod_add_div buffer 256
      · rw [show bits % 8 = (bits - 8) % 8 by omega]
        exact hlt
    · simp only [emitWhileAux, if_neg h8]
      refine ⟨?_, ?_, ?_, ?_⟩
      · simp
      · omega
      · simp
        omega
      · rw [Nat.mod_eq_of_lt (by omega)]
        exact h

/-- Helper: emitWhile satisfies the same specification (its fuel,
equal to the pending bit count, is always sufficient). -/
theorem emitWhile_spec (bits buffer : Nat) (h : buffer < 2 ^ bits) :
    Nat.ofDigits 256 (emitWhile buffer bits).1 +
      (emitWhile buffer bits).2.1 *
        256 ^ (emitWhile buffer bits).1.length = buffer ∧
    (emitWhile buffer bits).2.2 = bits % 8 ∧
    (emitWhile buffer bits).1.length = bits / 8 ∧
    (emitWhile buffer bits).2.1 < 2 ^ (bits % 8) :=
  emitWhileAux_spec bits bits buffer (le_refl bits) h

/-- Helper: the channel-packing loop emits, in little-endian base-256
digits, exactly the number whose base-2048 digits are the channel
values (shifted past any bits already pending), and one byte per 8
bits rounded up. -/
theorem packChans_spec : ∀ (chs : List Nat), (∀ c ∈ chs, c < 2048) →
    ∀ buffer bits, bits < 8 → buffer < 2 ^ bits →
    Nat.ofDigits 256 (packChans chs buffer bits) =
      buffer + Nat.ofDigits 2048 chs * 2 ^ bits ∧
    (packChans chs buffer bits).length = (bits + 11 * chs.length + 7) / 8 := by
  intro chs
  induction chs with
  | nil =>
    intro hc buffer bits hb hlt
    simp only [packChans]
    split
    case isTrue h0 =>
      constructor
      · have hm : buffer % 256 = buffer :=
          Nat.mod_eq_of_lt (lt_of_lt_of_le hlt (by
            calc (2:Nat) ^ bits ≤ 2 ^ 7 := Nat.pow_le_pow_right (by norm_num) (by omega)
              _ ≤ 256 := by norm_num))
        simp [and255, hm, Nat.ofDigits]
      · simp
        omega
    case isFalse h0 =>
      obtain rfl : bits = 0 := by omega
      obtain rfl : buffer = 0 := by omega
      simp [Nat.ofDigits]
  | cons v vs ih =>
    intro hc buffer bits hb hlt
    have hv : v < 2048 := hc v (by simp)
    have hvs : ∀ c ∈ vs, c < 2048 := fun c hcc => hc c (by simp [hcc])
    have hb1 : buffer ||| (v <<< bits) = buffer + v * 2 ^ bits :=
      lor_shiftLeft_add _ _ _ hlt
    have hlt1 : buffer ||| (v <<< bits) < 2 ^ (bits + 11) := by
      rw [hb1]
      have hsplit : (2 : Nat) ^ (bits + 11) = 2 ^ bits * 2048 := by
        rw [pow_add]
        norm_num
      have hvb : v * 2 ^ bits ≤ 2047 * 2 ^ bits :=
        Nat.mul_le_mul_right _ (by omega)
      have hpos : 0 < (2:Nat) ^ bits := by positivity
      calc buffer + v * 2 ^ bits < 2 ^ bits + 2047 * 2 ^ bits := by omega
        _ = 2 ^ bits * 2048 := by ring
        _ = 2 ^ (bits + 11) := hsplit.symm
    obtain ⟨ev, er2, elen, elt⟩ :=
      emitWhile_spec (bits + 11) (buffer ||| v <<< bits) hlt1
    have hbits2 : (emitWhile (buffer ||| v <<< bits) (bits + 11)).2.2 < 8 := by
      omega
    have hbuf2 : (emitWhile (buffer ||| v <<< bits) (bits + 11)).2.1 <
        2 ^ (emitWhile (buffer ||| v <<< bits) (bits + 11)).2.2 := by
      rw [er2]
      exact elt
    obtain ⟨pv, plen⟩ := ih hvs _ _ hbits2 hbuf2
    simp only [packChans]
    constructor
    · rw [show Nat.ofDigits 256 ((emitWhile (buffer ||| v <<< bits) (bits + 11)).1 ++
          packChans vs (emitWhile (buffer ||| v <<< bits) (bits + 11)).2.1
            (emitWhile (buffer ||| v <<< bits) (bits + 11)).2.2) =
          Nat.ofDigits 256 (emitWhile (buffer ||| v <<< bits) (bits + 11)).1 +
            256 ^ (emitWhile (buffer ||| v <<< bits) (bits + 11)).1.length *
              Nat.ofDigits 256 (packChans vs
                (emitWhile (buffer ||| v <<< bits) (bits + 11)).2.1
                (emitWhile (buffer ||| v <<< bits) (bits + 11)).2.2) by
            exact_mod_cast Nat.ofDigits_append]
      rw [pv, Nat.ofDigits_cons]
      have hpow : (256 : Nat) ^ (emitWhile (buffer ||| v <<< bits) (bits + 11)).1.length *
          2 ^ (emitWhile (buffer ||| v <<< bits) (bits + 11)).2.2 = 2 ^ (bits + 11) := by
        rw [show (256 : Nat) = 2 ^ 8 by norm_num, ← pow_mul, ← pow_add]
        congr 1
        omega
      calc Nat.ofDigits 256 (emitWhile (buffer ||| v <<< bits) (bits + 11)).1 +
            256 ^ (emitWhile (buffer ||| v <<< bits) (bits + 11)).1.length *
              ((emitWhile (buffer ||| v <<< bits) (bits + 11)).2.1 +
                Nat.ofDigits 2048 vs *
                  2 ^ (emitWhile (buffer ||| v <<< bits) (bits + 11)).2.2)
          = (Nat.ofDigits 256 (emitWhile (buffer ||| v <<< bits) (bits + 11)).1 +
              (emitWhile (buffer ||| v <<< bits) (bits + 11)).2.1 *
                256 ^ (emitWhile (buffer ||| v <<< bits) (bits + 11)).1.length) +
              (256 ^ (emitWhile (buffer ||| v <<< bits) (bits + 11)).1.length *
                2 ^ (emitWhile (buffer ||| v <<< bits) (bits + 11)).2.2) *
                Nat.ofDigits 2048 vs := by ring
        _ = (buffer ||| v <<< bits) + 2 ^ (bits + 11) * Nat.ofDigits 2048 vs := by
            rw [ev, hpow]
        _ = buffer + (v + 2048 * Nat.ofDigits 2048 vs) * 2 ^ bits := by
            rw [hb1, pow_add]
            ring_nf
    · rw [List.length_append, elen, plen, er2, List.length_cons]
      omega

/-- Helper: extracting base-b digit i of a number assembled from
digits below b recovers that digit. -/
theorem ofDigits_extract (b : Nat) (hb : 0 < b) :
    ∀ (L : List Nat), (∀ x ∈ L, x < b) →
    ∀ i, i < L.length → Nat.ofDigits b L / b ^ i % b = L.getD i 0 := by
  intro L
  induction L with
  | nil => intro h i hi; simp at hi
  | cons d t ih =>
    intro h i hi
    cases i with
    | zero =>
      rw [Nat.ofDigits_cons]
      rw [pow_zero, Nat.div_one, Nat.add_mul_mod_self_left,
        Nat.mod_eq_of_lt (h d (by simp))]
      rfl
    | succ i =>
      rw [Nat.ofDigits_cons]
      rw [pow_succ, mul_comm (b ^ i) b, ← Nat.div_div_eq_div_mul,
        Nat.add_mul_div_left _ _ hb, Nat.div_eq_of_lt (h d (by simp)), zero_add]
      have := ih (fun x hx => h x (by simp [hx])) i (by simpa using hi)
      rw [this]
      rfl

/-- Helper: the canonical 11-bit unpack inverts the packing loop on
any 16 channel values below 2048. -/
theorem unpack_pack (chs : List Nat) (hlen : chs.length = 16)
    (h : ∀ c ∈ chs, c < 2048) :
    unpackChannels (packChans chs 0 0) = chs := by
  have hv : Nat.ofDigits 256 (packChans chs 0 0) = Nat.ofDigits 2048 chs := by
    have hs := (packChans_spec chs h 0 0 (by norm_num) (by norm_num)).1
    simpa using hs
  apply List.ext_getElem (by simp [unpackChannels, hlen])
  intro i h1 h2
  simp only [unpackChannels, fromBytesLE, List.getElem_map, List.getElem_range]
  rw [hv, Nat.shiftRight_eq_div_pow,
    show (2 : Nat) ^ (11 * i) = 2048 ^ i by
      rw [pow_mul]
      norm_num,
    ofDigits_extract 2048 (by norm_num) chs h i (by omega),
    List.getD_eq_getElem?_getD, List.getElem?_eq_getElem (by omega)]
  rfl

/-- C7: the outbound channel frame is the header [0xC8, 0x18, 0x16],
then exactly 22 bytes holding the least-significant-bit-first 11-bit
packing of the 16 channel values, then the frame CRC8; consequently
the canonical 11-bit unpacking of those 22 bytes returns the original
16 values whenever they are all below 2048, and update_rc_channels
writes exactly this frame. -/
theorem c7_channel_frame_roundtrip (chs : List Nat) (hlen : chs.length = 16)
    (h : ∀ c ∈ chs, c < 2048) :
    rc_packet chs = [0xC8, 0x18, 0x16] ++ packChans chs 0 0 ++
      [crc8 ([0xC8, 0x18, 0x16] ++ packChans chs 0 0)] ∧
    (packChans chs 0 0).length = 22 ∧
    unpackChannels (packChans chs 0 0) = chs ∧
    (∀ (st : Dev) (now : ℤ),
      (update_rc_channels st now true).2 = [rc_packet (set_channels st)]) := by
  refine ⟨rfl, ?_, unpack_pack chs hlen h, fun st now => rfl⟩
  have hs := (packChans_spec chs h 0 0 (by norm_num) (by norm_num)).2
  rw [hs, hlen]

/-- Witness for C2: the decreasing-order law evaluated for parameter 7
with three concrete payloads. -/
theorem c2_decreasing_order_reassembly_witness :
    lookupA freshDev.param_buff 7 = none ∧
    ((((crsf_parameter_settings freshDev 3 (paramFrame 7 2 [0, 10, 65, 0])).bind
        (fun r => crsf_parameter_settings r.1 3 (paramFrame 7 1 [66, 0]))).bind
        (fun r => crsf_parameter_settings r.1 3 (paramFrame 7 0 [5]))).map
      (fun r => lookupA r.1.parameters 7) =
      some (some (publishRecord 7 0 ([0, 10, 65, 0] ++ [66, 0] ++ [5]))) ∧
    (((crsf_parameter_settings freshDev 3 (paramFrame 7 0 [5])).bind
        (fun r => crsf_parameter_settings r.1 3 (paramFrame 7 2 [0, 10, 65, 0]))).bind
        (fun r => crsf_parameter_settings r.1 3 (paramFrame 7 1 [66, 0]))).map
      (fun r => lookupA r.1.parameters 7) =
      some (some (publishRecord 7 0 [5]))) :=
  ⟨by decide, c2_decreasing_order_reassembly freshDev 3 7 [0, 10, 65, 0] [66, 0] [5]
    (by decide)⟩

/-- Witness for C3: two concrete link-statistics frames. -/
theorem c3_single_frame_per_call_witness :
    5 ≤ (linkStatsFrame 80).length ∧
    (linkStatsFrame 80).getD 1 0 = (linkStatsFrame 80).length - 2 ∧
    (linkStatsFrame 80).length ≤ 64 ∧
    linkStatsFrame 0 ≠ [] ∧
    handle_rx freshDev 7 true (linkStatsFrame 80 ++ linkStatsFrame 0) =
      handle_rx freshDev 7 true (linkStatsFrame 80) :=
  ⟨by decide, by decide, by decide, by decide,
    c3_single_frame_per_call freshDev 7 (linkStatsFrame 80) (linkStatsFrame 0)
      (by decide) (by decide) (by decide) (by decide)⟩

/-- Witness for C4: feeding only the chunks_remaining-2 chunk of a
3-chunk parameter. -/
theorem c4_missing_chunk_request_witness :
    (paramFrame 11 2 [3, 4])[5]? = some 11 ∧
    (paramFrame 11 2 [3, 4])[6]? = some 2 ∧
    storeChunk (chunkStoreOf freshDev 11 2) 2
        ((paramFrame 11 2 [3, 4]).dropLast.drop 7) =
      StoreOutcome.stored ⟨3, [none, none, some [3, 4]]⟩ ∧
    allFilled ⟨3, [none, none, some [3, 4]]⟩ = false ∧
    (∃ k, findMissingReq ([none, none, some [3, 4]] :
        List (Option (List Nat))) = some k ∧
      crsf_parameter_settings freshDev 2 (paramFrame 11 2 [3, 4]) =
        some ({ freshDev with
          param_buff := insertA freshDev.param_buff 11 ⟨3, [none, none, some [3, 4]]⟩
          last_tx := 2 }, [request_parameter_packet 11 k]) ∧
      k < ([none, none, some [3, 4]] : List (Option (List Nat))).length ∧
      ([none, none, some [3, 4]] : List (Option (List Nat)))[
        ([none, none, some [3, 4]] : List (Option (List Nat))).length - 1 - k]? =
        some none ∧
      (∀ j, ([none, none, some [3, 4]] : List (Option (List Nat))).length - 1 - k <
          j →
        j < ([none, none, some [3, 4]] : List (Option (List Nat))).length →
        ∃ q, ([none, none, some [3, 4]] : List (Option (List Nat)))[j]? =
          some (some q))) :=
  ⟨by decide, by decide, by decide, by decide,
    c4_missing_chunk_request freshDev 2 (paramFrame 11 2 [3, 4]) 11 2
      ⟨3, [none, none, some [3, 4]]⟩ (by decide) (by decide) (by decide) (by decide)⟩

/-- Witness for C5: each transition instantiated on concrete states
and frames. -/
theorem c5_tx_state_machine_witness :
    (timeout < (6 : ℤ) ∧
      update freshDev 6 true [] =
        some ({ freshDev with tx_state := ConnState.CONNECTING, last_tx := 6 },
          [ping_packet])) ∧
    (updateTick { freshDev with tx_state := ConnState.CONNECTING } 6 true =
      some ({ freshDev with tx_state := ConnState.CONNECTING, last_tx := 6 },
        [ping_packet])) ∧
    (handle_rx { freshDev with tx_state := ConnState.CONNECTING } 1 true
        deviceInfoFrame =
      some ({ freshDev with
        tx_state := ConnState.PARAMETERS
        device_info := some ⟨bytesToString [0xEA, 21, 0x29, 0xEA, 0xEE, 83, 76],
          "ABCD", 1, 2, 7, 3⟩ }, [])) ∧
    (∃ r, updateTick { freshDev with
        tx_state := ConnState.PARAMETERS
        device_info := some ⟨"n", "ABCD", 1, 2, 3, 1⟩ } 6 true = some r ∧
      r.2 = [request_parameter_packet 1 0] ∧
      r.1.param_idx = 1 ∧
      (r.1.tx_state = ConnState.CONNECTED ↔ (3 : Nat) ≤ 1)) ∧
    ((freshDev, ([] : List (List Nat))).1.tx_state = freshDev.tx_state ∨
      (freshDev.tx_state = ConnState.CONNECTING ∧
        (freshDev, ([] : List (List Nat))).1.tx_state = ConnState.PARAMETERS)) ∧
    ((freshDev, ([] : List (List Nat))).1.tx_state = freshDev.tx_state ∨
      ((freshDev.tx_state = ConnState.DISCONNECTED ∨
        freshDev.tx_state = ConnState.CONNECTING) ∧
        (freshDev, ([] : List (List Nat))).1.tx_state = ConnState.CONNECTING) ∨
      (freshDev.tx_state = ConnState.PARAMETERS ∧
        (freshDev, ([] : List (List Nat))).1.tx_state = ConnState.CONNECTED)) :=
  ⟨⟨by decide, c5_tx_state_machine.1 6 (by decide)⟩,
    c5_tx_state_machine.2.1 { freshDev with tx_state := ConnState.CONNECTING } 6
      (Or.inr rfl) (by decide),
    c5_tx_state_machine.2.2.1 { freshDev with tx_state := ConnState.CONNECTING } 1
      deviceInfoFrame
      ⟨bytesToString [0xEA, 21, 0x29, 0xEA, 0xEE, 83, 76], "ABCD", 1, 2, 7, 3⟩
      rfl (by decide) (by decide) (by decide) (by decide) (by decide) (by decide)
      (by decide),
    c5_tx_state_machine.2.2.2.1 { freshDev with
      tx_state := ConnState.PARAMETERS
      device_info := some ⟨"n", "ABCD", 1, 2, 3, 1⟩ } 6 rfl (by decide),
    c5_tx_state_machine.2.2.2.2.1 freshDev 0 true [] (freshDev, []) (by decide),
    c5_tx_state_machine.2.2.2.2.2 freshDev 0 true (freshDev, []) (by decide)⟩

/-- Witness for C6: a one-chunk parameter whose single byte fails to
parse. -/
theorem c6_parse_failure_publishes_raw_witness :
    (paramFrame 8 0 [9])[5]? = some 8 ∧
    (paramFrame 8 0 [9])[6]? = some 0 ∧
    storeChunk (chunkStoreOf freshDev 8 0) 0
        ((paramFrame 8 0 [9]).dropLast.drop 7) =
      StoreOutcome.stored ⟨1, [some [9]]⟩ ∧
    allFilled ⟨1, [some [9]]⟩ = true ∧
    parseParamFull 8 0 (combineChunks ⟨1, [some [9]]⟩) = none ∧
    (crsf_parameter_settings freshDev 4 (paramFrame 8 0 [9]) =
      some ({ freshDev with
        param_buff := insertA freshDev.param_buff 8 (clearChunks ⟨1, [some [9]]⟩)
        parameters := insertA freshDev.parameters 8
          (ParamRecord.raw (combineChunks ⟨1, [some [9]]⟩)) }, []) ∧
    (crsf_parameter_settings freshDev 4 (paramFrame 8 0 [9])).map
        (fun r => lookupA r.1.parameters 8) =
      some (some (ParamRecord.raw (combineChunks ⟨1, [some [9]]⟩)))) :=
  ⟨by decide, by decide, by decide, by decide, by decide,
    c6_parse_failure_publishes_raw freshDev 4 (paramFrame 8 0 [9]) 8 0
      ⟨1, [some [9]]⟩ (by decide) (by decide) (by decide) (by decide) (by decide)⟩

/-- Witness for C7: sixteen channels all at the center value 992. -/
theorem c7_channel_frame_roundtrip_witness :
    (List.replicate 16 992).length = 16 ∧
    (∀ c ∈ List.replicate 16 992, c < 2048) ∧
    (rc_packet (List.replicate 16 992) =
      [0xC8, 0x18, 0x16] ++ packChans (List.replicate 16 992) 0 0 ++
        [crc8 ([0xC8, 0x18, 0x16] ++ packChans (List.replicate 16 992) 0 0)] ∧
    (packChans (List.replicate 16 992) 0 0).length = 22 ∧
    unpackChannels (packChans (List.replicate 16 992) 0 0) =
      List.replicate 16 992 ∧
    (∀ (st : Dev) (now : ℤ),
      (update_rc_channels st now true).2 = [rc_packet (set_channels st)])) :=
  ⟨by decide, by decide,
    c7_channel_frame_roundtrip (List.replicate 16 992) (by decide) (by decide)⟩

/-- Witness for C8: channel 3 is held across update_rc_channels. -/
theorem c8_channel_defaults_and_hold_witness :
    2 ≤ 3 ∧
    (update_rc_channels freshDev 5 true).1.rc_channels.getD 3 0 =
      freshDev.rc_channels.getD 3 0 :=
  ⟨by decide, c8_channel_defaults_and_hold.2.1 freshDev 5 true 3 (by decide)⟩

end SimLink
